import Mathlib

/-!
Verification of the graphql-inspector CLI orchestration core.

Shallow embedding of:
- `packages/cli/src/config.ts` (command normalization: `transformProject`,
  `isCommandName`, the four command-kind predicates),
- the pipeline entry point `run` (project picking, the fan-out stage that
  spawns one buffered task per command, error isolation, flush),
- `packages/cli/src/commands/validate.ts` (`runValidate`, `countErrors`,
  `countDeprecated`),
- `packages/cli/src/commands/similar.ts` (`runSimilar`, `transformMap`,
  `outputJSON`).

External collaborators (graphql-config, schema/document loaders, the diff /
coverage / validate / similar core operations, the console renderer's styling)
are modelled as parameters (oracles); the orchestration logic itself is
translated line by line from the source.
-/

namespace Inspector

/-- JS `isNonNullable` / `pick(val, default)` from the entry point:
`isNonNullable(val) ? val : defaultValue`.  `Option.getD` is exactly this. -/
def pick {α : Type} (val : Option α) (defaultValue : α) : α :=
  val.getD defaultValue

/-! ## Command model (config.ts) -/

/-- A raw command entry body.  In the source this is an untyped union of
`DiffCommand | CoverageCommand | SimilarCommand | ValidateCommand` plus a
forward-compatible passthrough; every kind-specific field is optional here and
`command` is the kind tag (absent on shorthand bodies).  `Option` models
JS key presence. -/
structure RawCommand where
  command : Option String := none
  schema : Option String := none
  documents : Option String := none
  rule : Option (List String) := none
  write : Option String := none
  silent : Option Bool := none
  name : Option String := none
  threshold : Option Rat := none
  deprecated : Option Bool := none
  noStrictFragments : Option Bool := none
  apollo : Option Bool := none
  deriving DecidableEq

/-- `supportedCommands` from config.ts. -/
def supportedCommands : List String :=
  ["diff", "coverage", "similar", "validate"]

/-- `isCommandName(name)` from config.ts: membership in `supportedCommands`. -/
def isCommandName (n : String) : Bool :=
  supportedCommands.contains n

/-- `isDiffCommand` from config.ts: `command.command === 'diff'`. -/
def isDiffCommand (c : RawCommand) : Bool :=
  c.command = some "diff"

/-- `isCoverageCommand` from config.ts. -/
def isCoverageCommand (c : RawCommand) : Bool :=
  c.command = some "coverage"

/-- `isSimilarCommand` from config.ts. -/
def isSimilarCommand (c : RawCommand) : Bool :=
  c.command = some "similar"

/-- `isValidateCommand` from config.ts. -/
def isValidateCommand (c : RawCommand) : Bool :=
  c.command = some "validate"

/-- One iteration of the `transformProject` loop body for the entry
`(label, config)`:

```
if (isCommandName(name)) { commands[name] = {command: name, ...config}; }
else { commands[name] = config; }
```

JS object spread puts `config`'s own keys after `command: name`, so a
`command` key already present on `config` wins over the injected tag;
`Option.getD` on the existing key captures that. -/
def transformCommand (label : String) (config : RawCommand) : RawCommand :=
  if isCommandName label then
    { config with command := some (config.command.getD label) }
  else
    config

/-- `transformProject`'s command normalization over the whole insertion-ordered
collection (a JS object modelled as an association list in key insertion
order). -/
def transformCommands (cmds : List (String × RawCommand)) :
    List (String × RawCommand) :=
  cmds.map (fun e => (e.1, transformCommand e.1 e.2))

/-! ## Project picking (entry point, stage "Picking project") -/

/-- An abstract `GraphQLConfig` handle: only the two operations the pick-project
stage uses. `getProject` receives the raw (possibly absent) name, as in the
source call `ctx.config.getProject(options.project)`. -/
structure ConfigHandle (P : Type) where
  getDefault : P
  getProject : Option String → P

/-- JS truthiness of `string | undefined`: `undefined` and the empty string are
falsy. -/
def truthyStr : Option String → Bool
  | some s => !(s = "")
  | none => false

/-- The "Picking project" stage body, verbatim from the entry point:

```
ctx.project = options.project
  ? ctx.config.getDefault()
  : ctx.config.getProject(options.project);
```
-/
def pickProject {P : Type} (config : ConfigHandle P) (project : Option String) : P :=
  if truthyStr project then config.getDefault else config.getProject project

/-! ## Fan-out stage (entry point, stage "Running commands")

Each configured command becomes one concurrent Listr task.  A task owns a
fresh `ConsoleBufferRenderer` (created in collection insertion order, pushed
onto `ctx.renderers` before any task starts), emits a banner, dispatches on
the command's kind tag and catches every error locally.  The collaborator
operations (`loadSchema` + `runDiff`, `loadDocuments` + `runCoverage` /
`runValidate`, `runSimilar`) are opaque here: a `Collab` oracle returns, per
task, the lines the collaborator emitted to the task's buffer and the error
it threw, if any. -/

/-- Outcome of one opaque collaborator invocation: lines emitted into the
task's buffer, and `some msg` when the collaborator threw. -/
abbrev CollabResult := List String × Option String

/-- Oracle giving the collaborator outcome for a task, keyed by the task label
and its command. -/
abbrev Collab := String → RawCommand → CollabResult

/-- The task-start banner `renderer.emit('\n' + chalk(' command '), bold(taskName))`
with chalk styling and renderer argument joining abstracted away. -/
def banner (label : String) : String :=
  "\n command " ++ label

/-- The dispatch chain inside one task's `try` block (after the banner),
verbatim from the entry point:

- `isDiffCommand` → load old schema and run diff (oracle);
- `isCoverageCommand` / `isValidateCommand` → throw `'Documents are missing'`
  when neither `ctx.documents` nor `command.documents` is present, else load
  documents if needed and run the collaborator (oracle);
- `isSimilarCommand` → run similar (oracle);
- otherwise → throw `` `Command ${command.command} not supported` `` (a missing
  tag interpolates as the string `"undefined"`).

`haveDocs` is the presence of `ctx.documents`. -/
def taskDispatch (collab : Collab) (haveDocs : Bool) (label : String)
    (cmd : RawCommand) : CollabResult :=
  if isDiffCommand cmd then
    collab label cmd
  else if isCoverageCommand cmd then
    if !haveDocs && cmd.documents = none then
      ([], some "Documents are missing")
    else
      collab label cmd
  else if isValidateCommand cmd then
    if !haveDocs && cmd.documents = none then
      ([], some "Documents are missing")
    else
      collab label cmd
  else if isSimilarCommand cmd then
    collab label cmd
  else
    ([], some ("Command " ++ cmd.command.getD "undefined" ++ " not supported"))

/-- One whole task body: the banner emission, the dispatch, and the local
`catch` that records the error into the task's own buffer
(`renderer.error(error.message)`).  Returns the task's final buffer contents
and `true` when the task succeeded (i.e. the `catch` block did not run, so
`ctx.ok` is left alone). -/
def taskRun (collab : Collab) (haveDocs : Bool) (label : String)
    (cmd : RawCommand) : List String × Bool :=
  match taskDispatch collab haveDocs label cmd with
  | (lines, none) => (banner label :: lines, true)
  | (lines, some e) => (banner label :: (lines ++ [e]), false)

/-- The buffer (first component) and success flag contribution of the task
built for one collection entry. -/
def taskOutput (collab : Collab) (haveDocs : Bool) (e : String × RawCommand) :
    List String × Bool :=
  taskRun collab haveDocs e.1 e.2

/-- Executing one task of the concurrent fan-out, identified by its creation
index `i`: the task writes only its own renderer (slot `i` of the buffers
list, allocated at creation) and ANDs its success into the shared `ctx.ok`
flag.  An out-of-range index is a no-op. -/
def fanoutStep (collab : Collab) (haveDocs : Bool)
    (cmds : List (String × RawCommand)) (st : List (List String) × Bool)
    (i : Nat) : List (List String) × Bool :=
  match cmds[i]? with
  | none => st
  | some e =>
    (st.1.set i (taskOutput collab haveDocs e).1,
     st.2 && (taskOutput collab haveDocs e).2)

/-- The whole fan-out stage.  Renderer buffers are allocated empty, one per
collection entry, in insertion order (`ctx.renderers.push(renderer)` in the
`for..in` loop); `ctx.ok` starts `true`.  The tasks then run concurrently:
`order` is the sequence in which the single-threaded event loop completes the
task bodies.  Each task touches only its own buffer slot and the shared flag,
so `order` ranging over permutations of the creation indices models every
interleaving.  The result is (`ctx.renderers`' buffer contents in creation
order — exactly what the caller flushes — and the final `ctx.ok`). -/
def runFanout (collab : Collab) (haveDocs : Bool)
    (cmds : List (String × RawCommand)) (order : List Nat) :
    List (List String) × Bool :=
  order.foldl (fanoutStep collab haveDocs cmds)
    (List.replicate cmds.length [], true)

/-! ## Validate command (validate.ts) -/

/-- One entry of the external validator's result list (`InvalidDocument`):
a document's hard validation errors and its deprecated-field usages. -/
structure InvalidDocument where
  errors : List String
  deprecated : List String
  deriving DecidableEq

/-- The `options` record `runValidate` receives (`deprecated` and
`noStrictFragments` required, the rest optional). -/
structure RunValidateOptions where
  deprecated : Bool
  noStrictFragments : Bool
  apollo : Option Bool := none
  keepClientFields : Option Bool := none
  maxDepth : Option Nat := none
  deriving DecidableEq

/-- The options record `runValidate` actually hands to the external
`validateDocuments` collaborator. -/
structure ValidatorOptions where
  strictFragments : Bool
  maxDepth : Option Nat
  apollo : Bool
  keepClientFields : Bool
  deriving DecidableEq

/-- The option assembly at the `validateDocuments(schema, documents, {...})`
call site in `runValidate`:

```
strictFragments: !options.noStrictFragments,
maxDepth: options.maxDepth || undefined,
apollo: options.apollo || false,
keepClientFields: options.keepClientFields || false,
```

`x || undefined` on a number maps `0` (falsy) to `undefined`; `x || false` on
an optional boolean maps `undefined` to `false`. -/
def validatorOptions (options : RunValidateOptions) : ValidatorOptions :=
  { strictFragments := !options.noStrictFragments
    maxDepth := match options.maxDepth with
      | some 0 => none
      | d => d
    apollo := options.apollo.getD false
    keepClientFields := options.keepClientFields.getD false }

/-- The `options` assembly at the `runValidate` call site in the entry point's
validate dispatch:

```
deprecated: pick(command.deprecated, false),
noStrictFragments: pick(command.noStrictFragments, false),
apollo: pick(command.apollo, false),
```

(no `keepClientFields`, no `maxDepth`). -/
def dispatchValidateOptions (cmd : RawCommand) : RunValidateOptions :=
  { deprecated := pick cmd.deprecated false
    noStrictFragments := pick cmd.noStrictFragments false
    apollo := some (pick cmd.apollo false) }

/-- `countErrors` from validate.ts (including the redundant length guard). -/
def countErrors (invalidDocuments : List InvalidDocument) : Nat :=
  if invalidDocuments.length ≠ 0 then
    (invalidDocuments.filter (fun doc => doc.errors.length ≠ 0)).length
  else
    0

/-- `countDeprecated` from validate.ts. -/
def countDeprecated (invalidDocuments : List InvalidDocument) : Nat :=
  if invalidDocuments.length ≠ 0 then
    (invalidDocuments.filter (fun doc => doc.deprecated.length ≠ 0)).length
  else
    0

/-- `runValidate`, with the external pieces as oracles: `validateDocuments`
(the core validator, fed the assembled `ValidatorOptions`) and the two
renderers `renderInvalidDocument` / `renderDeprecatedUsageInDocument` from
render.ts.  Returns the lines emitted to the sink and `some msg` when the
function throws.  The flow is verbatim:

- no invalid documents → success line, return;
- `errorsCount` truthy → emit the invalid-document report; else when
  `options.deprecated` is falsy → success line;
- `deprecated` count truthy → emit the deprecated report;
- throw `'Some documents are invalid'` iff
  `errorsCount || (deprecated && options.deprecated)`. -/
def runValidate (validateDocuments : ValidatorOptions → List InvalidDocument)
    (renderInvalidDocument : InvalidDocument → List String)
    (renderDeprecatedUsageInDocument : InvalidDocument → Bool → List String)
    (options : RunValidateOptions) : List String × Option String :=
  let invalidDocuments := validateDocuments (validatorOptions options)
  if invalidDocuments.length = 0 then
    (["All documents are valid"], none)
  else
    let errorsCount := countErrors invalidDocuments
    let deprecated := countDeprecated invalidDocuments
    let errorLines :=
      if errorsCount ≠ 0 then
        ("\nDetected " ++ toString errorsCount ++ " invalid document" ++
            (if errorsCount > 1 then "s" else "") ++ ":\n") ::
          (invalidDocuments.filter (fun doc => doc.errors.length ≠ 0)).flatMap
            renderInvalidDocument
      else if !options.deprecated then
        ["All documents are valid"]
      else
        []
    let deprecatedLines :=
      if deprecated ≠ 0 then
        ("\nDetected " ++ toString deprecated ++ " document" ++
            (if deprecated > 1 then "s" else "") ++ " with deprecated fields:\n") ::
          (invalidDocuments.filter (fun doc => doc.deprecated.length ≠ 0)).flatMap
            (fun doc => renderDeprecatedUsageInDocument doc options.deprecated)
      else
        []
    (errorLines ++ deprecatedLines,
     if errorsCount ≠ 0 ∨ (deprecated ≠ 0 ∧ options.deprecated) then
       some "Some documents are invalid"
     else
       none)

/-! ## Similar command (similar.ts)

`findSimilar` is the external rating engine; a `SimilarMap` is a JS object
(insertion-ordered) from type name to `{bestMatch: Rating, ratings: Rating[]}`.
Ratings are JS numbers, kept abstract as rationals; the JSON text written by
`JSON.stringify` is modelled at the level of the JSON document it denotes
(an explicit `Json` value), which keeps number formatting opaque. -/

/-- `Rating.target` (a typeId carrier). -/
structure Target where
  typeId : String
  deriving DecidableEq

/-- A `Rating` from the core package. -/
structure Rating where
  target : Target
  rating : Rat
  deriving DecidableEq

/-- One value of a `SimilarMap`: `bestMatch` and `ratings` (both always
present on the core's type; `transformMap` re-checks them for truthiness,
which on these object/array values is always true). -/
structure SimilarEntry where
  bestMatch : Rating
  ratings : List Rating
  deriving DecidableEq

/-- A `SimilarMap` as an insertion-ordered association list. -/
abbrev SimilarMap := List (String × SimilarEntry)

/-- A `SimilarRecord` from similar.ts. -/
structure SimilarRecord where
  typename : String
  rating : Rat
  deriving DecidableEq

/-- `SimilarResults`: insertion-ordered object from typename to records. -/
abbrev SimilarResults := List (String × List SimilarRecord)

/-- `trasformResult` (sic) from similar.ts. -/
def trasformResult (record : Rating) : SimilarRecord :=
  { typename := record.target.typeId, rating := record.rating }

/-- `transformMap` from similar.ts: per type name, start from `[]`, push the
transformed `bestMatch` if truthy (always, on the core's type), then push the
transformed `ratings` if truthy (always). -/
def transformMap (similarMap : SimilarMap) : SimilarResults :=
  similarMap.map (fun e =>
    (e.1, trasformResult e.2.bestMatch :: e.2.ratings.map trasformResult))

/-- The JSON documents `JSON.stringify` can produce for the values at hand. -/
inductive Json where
  | str : String → Json
  | num : Rat → Json
  | arr : List Json → Json
  | obj : List (String × Json) → Json

/-- JSON document of one `SimilarRecord` (`{"typename": ..., "rating": ...}`). -/
def encodeRecord (r : SimilarRecord) : Json :=
  .obj [("typename", .str r.typename), ("rating", .num r.rating)]

/-- `outputJSON(results)`, i.e. `JSON.stringify(results)`, as the JSON
document it serializes. -/
def outputJSON (results : SimilarResults) : Json :=
  .obj (results.map (fun e => (e.1, .arr (e.2.map encodeRecord))))

/-- JSON parsing of one record object. -/
def decodeRecord : Json → Option SimilarRecord
  | .obj [("typename", .str t), ("rating", .num r)] =>
    some { typename := t, rating := r }
  | _ => none

/-- JSON parsing of a list of record objects. -/
def decodeRecords : List Json → Option (List SimilarRecord)
  | [] => some []
  | j :: js =>
    match decodeRecord j, decodeRecords js with
    | some r, some rs => some (r :: rs)
    | _, _ => none

/-- JSON parsing of the typename → records fields. -/
def decodeFields : List (String × Json) → Option SimilarResults
  | [] => some []
  | (n, .arr js) :: rest =>
    match decodeRecords js, decodeFields rest with
    | some rs, some tl => some ((n, rs) :: tl)
    | _, _ => none
  | _ => none

/-- Parsing a written similarity JSON document back into a result mapping. -/
def decodeResults : Json → Option SimilarResults
  | .obj fields => decodeFields fields
  | _ => none

/-- `formatRating(ratio) = Math.floor(ratio * 100)`. -/
def formatRating (ratio : Rat) : Int :=
  (ratio * 100).floor

/-- `printScale` from similar.ts: five threshold bullets (chalk graying
abstracted, `figures.bullet` rendered as a bullet character). -/
def printScale (ratio : Rat) : String :=
  let percentage := (ratio * 100).floor
  let levels : List Int := [0, 30, 50, 70, 90]
  String.join ((levels.map (fun level => percentage ≥ level)).map
    (fun _ => "•"))

/-- `printResult(name, rating)` (indentation by 0 is the identity; chalk
styling abstracted). -/
def printResult (name : String) (rating : Rat) : String :=
  printScale rating ++ " (" ++ toString (formatRating rating) ++ "%) " ++ name

/-- JS `'.'.replace('.', '')` replaces only the FIRST occurrence: drop the
first dot of the character list. -/
def removeFirstDot : List Char → List Char
  | [] => []
  | c :: cs => if c = '.' then cs else c :: removeFirstDot cs

/-- `extname(absPath).replace('.', '').toLocaleLowerCase()` given the raw
`extname` output (lower-casing per character, as toLocaleLowerCase does on
the ASCII extensions at hand). -/
def cleanExt (rawExt : String) : String :=
  String.mk ((removeFirstDot rawExt.toList).map Char.toLower)

/-- The observable outcome of one `runSimilar` call: lines emitted to the
renderer, files written (path and JSON document content), and the thrown
error, if any. -/
structure SimilarOutcome where
  emitted : List String
  written : List (String × Json)
  error : Option String

/-- The per-type report lines of `runSimilar`'s main loop: a blank line, the
`${prefix} ${sourceType}` line, the best-match line, then one line per entry
of `ratings`.  `typePrefixOf` models `getTypePrefix(schema.getType(name))`. -/
def similarReportLines (typePrefixOf : String → String)
    (similarMap : SimilarMap) : List String :=
  similarMap.flatMap (fun e =>
    "" ::
    (typePrefixOf e.1 ++ " " ++ e.1) ::
    printResult e.2.bestMatch.target.typeId e.2.bestMatch.rating ::
    e.2.ratings.map (fun m => printResult m.target.typeId m.rating))

/-- `runSimilar` from similar.ts, with the external pieces as oracles:
`typePrefixOf` (schema lookup + `getTypePrefix`), `isValidPath` (the
`is-valid-path` package) and `ensureAbsolute` (path resolution).  The
`findSimilar` result is the `similarMap` argument.  Verbatim flow:

- empty map → emit `'\nNo similar types found'` and return (no write-path
  handling at all);
- otherwise emit the report, then when `write` was supplied: reject an
  invalid path, compute the cleaned lowercase extension of the absolute
  path, serialize `transformMap` when the extension is `json` and write it,
  else throw the unsupported-extension error without writing;
- trailing `renderer.emit()` on every non-throwing path. -/
def runSimilar (typePrefixOf : String → String) (isValidPath : String → Bool)
    (ensureAbsolute : String → String) (extname : String → String)
    (similarMap : SimilarMap) (write : Option String) : SimilarOutcome :=
  if similarMap.length = 0 then
    { emitted := ["\nNo similar types found"], written := [], error := none }
  else
    let report := similarReportLines typePrefixOf similarMap
    match write with
    | none => { emitted := report ++ [""], written := [], error := none }
    | some w =>
      if !isValidPath w then
        { emitted := report, written := [],
          error := some ("--write is not valid file path: " ++ w) }
      else
        let absPath := ensureAbsolute w
        let ext := cleanExt (extname absPath)
        if ext = "json" then
          { emitted := report ++ ["Available at " ++ absPath ++ " \n", ""],
            written := [(absPath, outputJSON (transformMap similarMap))],
            error := none }
        else
          { emitted := report, written := [],
            error := some ("Extension " ++ ext ++ " is not supported") }

/-! ## Helper lemmas about the fan-out fold -/

/-- Success contribution of the task at creation index `i` (no-op for an
out-of-range index). -/
def okOf (collab : Collab) (haveDocs : Bool)
    (cmds : List (String × RawCommand)) (i : Nat) : Bool :=
  match cmds[i]? with
  | none => true
  | some e => (taskOutput collab haveDocs e).2

theorem fanoutStep_fst_length (collab : Collab) (haveDocs : Bool)
    (cmds : List (String × RawCommand)) (st : List (List String) × Bool)
    (i : Nat) :
    (fanoutStep collab haveDocs cmds st i).1.length = st.1.length := by
  unfold fanoutStep
  cases cmds[i]? <;> simp

theorem fanout_foldl_length (collab : Collab) (haveDocs : Bool)
    (cmds : List (String × RawCommand)) (os : List Nat)
    (st : List (List String) × Bool) :
    (os.foldl (fanoutStep collab haveDocs cmds) st).1.length = st.1.length := by
  induction os generalizing st with
  | nil => rfl
  | cons i os ih =>
    rw [List.foldl_cons, ih, fanoutStep_fst_length]

theorem fanout_foldl_snd (collab : Collab) (haveDocs : Bool)
    (cmds : List (String × RawCommand)) (os : List Nat)
    (st : List (List String) × Bool) :
    (os.foldl (fanoutStep collab haveDocs cmds) st).2 =
      (st.2 && os.all (okOf collab haveDocs cmds)) := by
  induction os generalizing st with
  | nil => simp
  | cons i os ih =>
    rw [List.foldl_cons, ih]
    have hstep : (fanoutStep collab haveDocs cmds st i).2 =
        (st.2 && okOf collab haveDocs cmds i) := by
      unfold fanoutStep okOf
      cases cmds[i]? <;> simp
    rw [hstep, List.all_cons, Bool.and_assoc]

theorem fanout_foldl_getElem? (collab : Collab) (haveDocs : Bool)
    (cmds : List (String × RawCommand)) (os : List Nat)
    (st : List (List String) × Bool) (hlen : st.1.length = cmds.length)
    (j : Nat) :
    (os.foldl (fanoutStep collab haveDocs cmds) st).1[j]? =
      if j ∈ os ∧ j < cmds.length then
        (cmds[j]?).map (fun e => (taskOutput collab haveDocs e).1)
      else
        st.1[j]? := by
  induction os generalizing st with
  | nil => simp
  | cons i os ih =>
    rw [List.foldl_cons]
    have hlen' : (fanoutStep collab haveDocs cmds st i).1.length = cmds.length := by
      rw [fanoutStep_fst_length, hlen]
    rw [ih _ hlen']
    by_cases hmem : j ∈ os ∧ j < cmds.length
    · simp [hmem, List.mem_cons, hmem.1, hmem.2]
    · rw [if_neg hmem]
      cases hcm : cmds[i]? with
      | none =>
        have hge : cmds.length ≤ i := by
          by_contra h
          push_neg at h
          rw [List.getElem?_eq_getElem h] at hcm
          exact Option.noConfusion hcm
        unfold fanoutStep
        rw [hcm]
        by_cases hji : j = i
        · subst hji
          simp [Nat.not_lt.mpr hge]
        · have : (j ∈ i :: os ∧ j < cmds.length) ↔ (j ∈ os ∧ j < cmds.length) := by
            simp [List.mem_cons, hji]
          rw [if_congr this rfl rfl, if_neg hmem]
      | some e =>
        have hlt : i < cmds.length := by
          by_contra h
          push_neg at h
          rw [List.getElem?_eq_none (by omega)] at hcm
          exact Option.noConfusion hcm
        unfold fanoutStep
        rw [hcm]
        simp only []
        by_cases hji : j = i
        · subst hji
          have hcond : j ∈ j :: os ∧ j < cmds.length := ⟨List.mem_cons_self j os, hlt⟩
          rw [if_pos hcond, List.getElem?_set, if_pos rfl, if_pos (hlen ▸ hlt), hcm]
          rfl
        · have : (j ∈ i :: os ∧ j < cmds.length) ↔ (j ∈ os ∧ j < cmds.length) := by
            simp [List.mem_cons, hji]
          rw [if_congr this rfl rfl, if_neg hmem, List.getElem?_set,
            if_neg (fun h => hji h.symm)]

theorem runFanout_fst (collab : Collab) (haveDocs : Bool)
    (cmds : List (String × RawCommand)) (order : List Nat)
    (horder : order.Perm (List.range cmds.length)) :
    (runFanout collab haveDocs cmds order).1 =
      cmds.map (fun e => (taskOutput collab haveDocs e).1) := by
  apply List.ext_getElem?
  intro j
  rw [runFanout, fanout_foldl_getElem? _ _ _ _ _ (by simp)]
  by_cases hj : j < cmds.length
  · have hmem : j ∈ order := horder.mem_iff.mpr (List.mem_range.mpr hj)
    rw [if_pos ⟨hmem, hj⟩, List.getElem?_map]
  · have : ¬(j ∈ order ∧ j < cmds.length) := fun h => hj h.2
    rw [if_neg this]
    rw [List.getElem?_replicate, if_neg hj, List.getElem?_eq_none]
    simpa using Nat.le_of_not_lt hj

theorem runFanout_snd (collab : Collab) (haveDocs : Bool)
    (cmds : List (String × RawCommand)) (order : List Nat) :
    (runFanout collab haveDocs cmds order).2 =
      order.all (okOf collab haveDocs cmds) := by
  rw [runFanout, fanout_foldl_snd, Bool.true_and]

/-- Shared consequence of one task's dispatch throwing: the aggregate flag is
false, the failing task's buffer is its banner, the collaborator lines, and
exactly one trailing error line, and every buffer (the failing task's and all
its siblings') still holds its own task's full output, in creation order. -/
theorem runFanout_failed_task (collab : Collab) (haveDocs : Bool)
    (cmds : List (String × RawCommand)) (order : List Nat) (i : Nat)
    (l : String) (cmd : RawCommand) (lines : List String) (e : String)
    (hi : cmds[i]? = some (l, cmd))
    (horder : order.Perm (List.range cmds.length))
    (hthrow : taskDispatch collab haveDocs l cmd = (lines, some e)) :
    (runFanout collab haveDocs cmds order).2 = false ∧
    (runFanout collab haveDocs cmds order).1[i]? =
      some (banner l :: (lines ++ [e])) ∧
    (runFanout collab haveDocs cmds order).1 =
      cmds.map (fun t => (taskOutput collab haveDocs t).1) := by
  have hlt : i < cmds.length := by
    by_contra h
    rw [List.getElem?_eq_none (Nat.le_of_not_lt h)] at hi
    exact Option.noConfusion hi
  have hmem : i ∈ order := horder.mem_iff.mpr (List.mem_range.mpr hlt)
  have hfst := runFanout_fst collab haveDocs cmds order horder
  have hout : (taskOutput collab haveDocs (l, cmd)) =
      (banner l :: (lines ++ [e]), false) := by
    simp [taskOutput, taskRun, hthrow]
  refine ⟨?_, ?_, hfst⟩
  · rw [runFanout_snd]
    cases hall : order.all (okOf collab haveDocs cmds) with
    | false => rfl
    | true =>
      have h2 := List.all_eq_true.mp hall i hmem
      simp [okOf, hi, hout] at h2
  · rw [hfst, List.getElem?_map, hi]
    simp [hout]

/-- C1.  The claim states the intended "Picking project" semantics: named
project when a project name is supplied, default project otherwise.  The code
has the ternary's branches swapped (`options.project ? ctx.config.getDefault()
: ctx.config.getProject(options.project)`), so on a run with a project-name
override it stores the default project, not the project selected by the given
name.  This theorem exhibits the divergence on a concrete config where the two
projects differ: with the override `"web"` supplied, the stored project is the
default one and is not the project named `"web"`. -/
theorem pickProject_ignores_supplied_name :
    pickProject
      { getDefault := "the-default-project",
        getProject := fun o => "project-named-" ++ o.getD "none" }
      (some "web") = "the-default-project" ∧
    "the-default-project" ≠
      ConfigHandle.getProject
        { getDefault := "the-default-project",
          getProject := fun o => "project-named-" ++ o.getD "none" }
        (some "web") := by
  constructor
  · rfl
  · decide

/-- C2.  In the fan-out stage, a task whose body throws is caught inside that
task: the aggregate `ctx.ok` flag becomes false, exactly one error line is
appended at the end of that task's own buffer (after its banner and whatever
the collaborator emitted), and no sibling task or the overall fan-out is
aborted: every task's buffer still holds that task's own full output, in
creation order. -/
theorem fanout_task_error_is_isolated (collab : Collab) (haveDocs : Bool)
    (cmds : List (String × RawCommand)) (order : List Nat) (i : Nat)
    (l : String) (cmd : RawCommand) (lines : List String) (e : String)
    (hi : cmds[i]? = some (l, cmd))
    (horder : order.Perm (List.range cmds.length))
    (hthrow : taskDispatch collab haveDocs l cmd = (lines, some e)) :
    (runFanout collab haveDocs cmds order).2 = false ∧
    (runFanout collab haveDocs cmds order).1[i]? =
      some (banner l :: (lines ++ [e])) ∧
    (runFanout collab haveDocs cmds order).1 =
      cmds.map (fun t => (taskOutput collab haveDocs t).1) :=
  runFanout_failed_task collab haveDocs cmds order i l cmd lines e hi horder hthrow

/-- C3.  The fan-out stage creates exactly one buffered renderer per
collection entry, in insertion order, and once all tasks have settled the
flushed buffer list (`ctx.renderers` in creation order) is exactly the list
of per-task outputs in that same order — the completion order `order` does
not appear on the right-hand side, so any interleaving of task completions
yields the same flush. -/
theorem fanout_buffers_count_and_flush_order (collab : Collab) (haveDocs : Bool)
    (cmds : List (String × RawCommand)) (order : List Nat)
    (horder : order.Perm (List.range cmds.length)) :
    (runFanout collab haveDocs cmds order).1.length = cmds.length ∧
    (runFanout collab haveDocs cmds order).1 =
      cmds.map (fun t => (taskOutput collab haveDocs t).1) := by
  have h := runFanout_fst collab haveDocs cmds order horder
  exact ⟨by rw [h, List.length_map], h⟩

/-- C5.  Normalizing the shorthand entry `K ↦ B` for a known command-kind
name `K` yields the same `CommandSpec` as normalizing the explicit entry
`L ↦ (B with the tag field command: K)` under any other label `L`: both give
`B` extended with `command := K`, so the two normalized entries differ only
in their task label. -/
theorem shorthand_explicit_normalize_agree (K L : String) (B : RawCommand)
    (hK : K ∈ supportedCommands) (hB : B.command = none) :
    transformCommand K B = { B with command := some K } ∧
    transformCommand L { B with command := some K } =
      { B with command := some K } := by
  have hKname : isCommandName K = true := by
    simpa [isCommandName] using hK
  constructor
  · simp [transformCommand, hKname, hB]
  · unfold transformCommand
    by_cases hl : isCommandName L
    · rw [if_pos hl]
      simp
    · rw [if_neg hl]

/-- C6.  An entry whose kind tag `k` is none of the four known kinds is left
unchanged by normalization (under every task label), and dispatching it fails
that task with the error `` `Command k not supported` `` — a message
containing the exact unrecognized kind string — while the run is not aborted:
the aggregate flag flips to false and every sibling buffer still holds its own
task's output, flushed in creation order. -/
theorem unknown_kind_passthrough_and_task_error (collab : Collab)
    (haveDocs : Bool) (cmds : List (String × RawCommand)) (order : List Nat)
    (i : Nat) (l k : String) (cmd : RawCommand)
    (hk : cmd.command = some k)
    (hunk : k ∉ supportedCommands)
    (hi : cmds[i]? = some (l, cmd))
    (horder : order.Perm (List.range cmds.length)) :
    (∀ label, transformCommand label cmd = cmd) ∧
    taskDispatch collab haveDocs l cmd =
      ([], some ("Command " ++ k ++ " not supported")) ∧
    k.toList <:+: ("Command " ++ k ++ " not supported").toList ∧
    (runFanout collab haveDocs cmds order).2 = false ∧
    (runFanout collab haveDocs cmds order).1[i]? =
      some [banner l, "Command " ++ k ++ " not supported"] ∧
    (runFanout collab haveDocs cmds order).1 =
      cmds.map (fun t => (taskOutput collab haveDocs t).1) := by
  have hd : taskDispatch collab haveDocs l cmd =
      ([], some ("Command " ++ k ++ " not supported")) := by
    simp [supportedCommands] at hunk
    simp [taskDispatch, isDiffCommand, isCoverageCommand, isValidateCommand,
      isSimilarCommand, hk, hunk.1, hunk.2.1, hunk.2.2.1, hunk.2.2.2]
  obtain ⟨hok, hbuf, hall⟩ := runFanout_failed_task collab haveDocs cmds order
    i l cmd [] ("Command " ++ k ++ " not supported") hi horder hd
  rw [List.nil_append] at hbuf
  refine ⟨?_, hd, ⟨"Command ".toList, " not supported".toList, by simp⟩,
    hok, hbuf, hall⟩
  intro label
  unfold transformCommand
  by_cases hl : isCommandName label
  · rw [if_pos hl, hk]
    cases cmd
    simp_all
  · rw [if_neg hl]

/-- C8.  A coverage or validate task run with no pre-loaded context documents
(`haveDocs = false`) and no per-command document pointer fails with the
`'Documents are missing'` error, locally: the aggregate flag flips to false,
that task's buffer ends in the error line, and every sibling buffer still
holds its own task's output, flushed in creation order. -/
theorem missing_documents_error_is_task_local (collab : Collab)
    (cmds : List (String × RawCommand)) (order : List Nat) (i : Nat)
    (l : String) (cmd : RawCommand)
    (hkind : cmd.command = some "coverage" ∨ cmd.command = some "validate")
    (hnodocs : cmd.documents = none)
    (hi : cmds[i]? = some (l, cmd))
    (horder : order.Perm (List.range cmds.length)) :
    taskDispatch collab false l cmd = ([], some "Documents are missing") ∧
    (runFanout collab false cmds order).2 = false ∧
    (runFanout collab false cmds order).1[i]? =
      some [banner l, "Documents are missing"] ∧
    (runFanout collab false cmds order).1 =
      cmds.map (fun t => (taskOutput collab false t).1) := by
  have hd : taskDispatch collab false l cmd =
      ([], some "Documents are missing") := by
    rcases hkind with h | h <;>
      simp [taskDispatch, isDiffCommand, isCoverageCommand, isValidateCommand,
        isSimilarCommand, h, hnodocs]
  obtain ⟨hok, hbuf, hall⟩ := runFanout_failed_task collab false cmds order
    i l cmd [] "Documents are missing" hi horder hd
  rw [List.nil_append] at hbuf
  exact ⟨hd, hok, hbuf, hall⟩

/-- C7.  For every validate dispatch from the fan-out stage, the options the
document validator receives satisfy: `strictFragments` is the negation of the
`noStrictFragments` option handed to `runValidate` (in particular strict when
the command leaves `noStrictFragments` unset), `apollo` is false when the
command leaves it unset, `keepClientFields` is false (the dispatch never sets
it), and `maxDepth` is absent (no depth limit; the dispatch never sets it). -/
theorem validate_dispatch_option_defaults (cmd : RawCommand) :
    (validatorOptions (dispatchValidateOptions cmd)).strictFragments =
      !(dispatchValidateOptions cmd).noStrictFragments ∧
    (cmd.noStrictFragments = none →
      (validatorOptions (dispatchValidateOptions cmd)).strictFragments = true) ∧
    (cmd.apollo = none →
      (validatorOptions (dispatchValidateOptions cmd)).apollo = false) ∧
    (validatorOptions (dispatchValidateOptions cmd)).keepClientFields = false ∧
    (validatorOptions (dispatchValidateOptions cmd)).maxDepth = none := by
  refine ⟨rfl, ?_, ?_, rfl, rfl⟩
  · intro h
    simp [validatorOptions, dispatchValidateOptions, pick, h]
  · intro h
    simp [validatorOptions, dispatchValidateOptions, pick, h]

/-- Witness for C7 at the command that leaves every option unset. -/
theorem validate_dispatch_option_defaults_witness :
    (validatorOptions (dispatchValidateOptions {})).strictFragments =
      !(dispatchValidateOptions {}).noStrictFragments ∧
    (({} : RawCommand).noStrictFragments = none →
      (validatorOptions (dispatchValidateOptions {})).strictFragments = true) ∧
    (({} : RawCommand).apollo = none →
      (validatorOptions (dispatchValidateOptions {})).apollo = false) ∧
    (validatorOptions (dispatchValidateOptions {})).keepClientFields = false ∧
    (validatorOptions (dispatchValidateOptions {})).maxDepth = none :=
  validate_dispatch_option_defaults {}

/-! ## Helper lemmas for the validate error counts -/

theorem countErrors_eq (invalidDocuments : List InvalidDocument) :
    countErrors invalidDocuments =
      (invalidDocuments.filter (fun doc => doc.errors.length ≠ 0)).length := by
  unfold countErrors
  split
  · rfl
  · next h =>
    have : invalidDocuments = [] := by
      simpa using h
    simp [this]

theorem countDeprecated_eq (invalidDocuments : List InvalidDocument) :
    countDeprecated invalidDocuments =
      (invalidDocuments.filter (fun doc => doc.deprecated.length ≠ 0)).length := by
  unfold countDeprecated
  split
  · rfl
  · next h =>
    have : invalidDocuments = [] := by
      simpa using h
    simp [this]

theorem countErrors_ne_zero_iff (invalidDocuments : List InvalidDocument) :
    countErrors invalidDocuments ≠ 0 ↔
      ∃ d ∈ invalidDocuments, d.errors ≠ [] := by
  rw [countErrors_eq, Ne, List.length_eq_zero, List.filter_eq_nil_iff]
  push_neg
  simp [List.length_eq_zero]

theorem countDeprecated_ne_zero_iff (invalidDocuments : List InvalidDocument) :
    countDeprecated invalidDocuments ≠ 0 ↔
      ∃ d ∈ invalidDocuments, d.deprecated ≠ [] := by
  rw [countDeprecated_eq, Ne, List.length_eq_zero, List.filter_eq_nil_iff]
  push_neg
  simp [List.length_eq_zero]

/-- C4.  `runValidate` throws (its result carries an error) if and only if at
least one document reported by the validator has hard validation errors, or at
least one reported document uses deprecated fields and the `deprecated` option
is set; in every other case — including deprecated usages present while the
`deprecated` option is false — it returns normally. -/
theorem runValidate_throws_iff
    (validateDocuments : ValidatorOptions → List InvalidDocument)
    (renderInvalidDocument : InvalidDocument → List String)
    (renderDeprecatedUsageInDocument : InvalidDocument → Bool → List String)
    (options : RunValidateOptions) :
    (runValidate validateDocuments renderInvalidDocument
        renderDeprecatedUsageInDocument options).2.isSome = true ↔
      ((∃ d ∈ validateDocuments (validatorOptions options), d.errors ≠ []) ∨
       ((∃ d ∈ validateDocuments (validatorOptions options),
           d.deprecated ≠ []) ∧
        options.deprecated = true)) := by
  have hE := countErrors_ne_zero_iff (validateDocuments (validatorOptions options))
  have hD := countDeprecated_ne_zero_iff (validateDocuments (validatorOptions options))
  unfold runValidate
  by_cases hlen : (validateDocuments (validatorOptions options)).length = 0
  · have hdocs : validateDocuments (validatorOptions options) = [] :=
      List.length_eq_zero.mp hlen
    simp [hlen, hdocs]
  · rw [if_neg hlen]
    by_cases hc : countErrors (validateDocuments (validatorOptions options)) ≠ 0 ∨
        (countDeprecated (validateDocuments (validatorOptions options)) ≠ 0 ∧
         options.deprecated = true)
    · simp only [hc, if_true, Option.isSome_some, true_iff]
      rcases hc with h | h
      · exact Or.inl (hE.mp h)
      · exact Or.inr ⟨hD.mp h.1, h.2⟩
    · simp only [hc, if_false, Option.isSome_none, Bool.false_eq_true, false_iff]
      intro h
      apply hc
      rcases h with h | h
      · exact Or.inl (hE.mpr h)
      · exact Or.inr ⟨hD.mpr h.1, h.2⟩

/-! ## JSON round-trip helper lemmas -/

theorem decodeRecord_encodeRecord (r : SimilarRecord) :
    decodeRecord (encodeRecord r) = some r := rfl

theorem decodeRecords_map_encodeRecord (rs : List SimilarRecord) :
    decodeRecords (rs.map encodeRecord) = some rs := by
  induction rs with
  | nil => rfl
  | cons r rs ih => simp [decodeRecords, decodeRecord_encodeRecord, ih]

theorem decodeResults_outputJSON (results : SimilarResults) :
    decodeResults (outputJSON results) = some results := by
  rw [outputJSON, decodeResults]
  induction results with
  | nil => rfl
  | cons e rest ih =>
    simp only [List.map_cons, decodeFields, decodeRecords_map_encodeRecord]
    rw [ih]

/-- C9.  When `runSimilar` writes a non-empty similarity result to a path
with (cleaned, lower-cased) extension `json`, it writes exactly the JSON
serialization of `transformMap`'s result map to the resolved absolute path,
throws nothing, and parsing the written JSON document yields a mapping equal
to the in-memory result map; when the path has any other extension it throws
the unsupported-extension error and performs no write at all. -/
theorem similar_write_roundtrip_or_rejects (typePrefixOf : String → String)
    (isValidPath : String → Bool) (ensureAbsolute : String → String)
    (extname : String → String) (similarMap : SimilarMap) (w : String)
    (hne : similarMap ≠ [])
    (hvalid : isValidPath w = true) :
    (cleanExt (extname (ensureAbsolute w)) = "json" →
      (runSimilar typePrefixOf isValidPath ensureAbsolute extname similarMap
          (some w)).written =
        [(ensureAbsolute w, outputJSON (transformMap similarMap))] ∧
      (runSimilar typePrefixOf isValidPath ensureAbsolute extname similarMap
          (some w)).error = none ∧
      decodeResults (outputJSON (transformMap similarMap)) =
        some (transformMap similarMap)) ∧
    (cleanExt (extname (ensureAbsolute w)) ≠ "json" →
      (runSimilar typePrefixOf isValidPath ensureAbsolute extname similarMap
          (some w)).error =
        some ("Extension " ++ cleanExt (extname (ensureAbsolute w)) ++
          " is not supported") ∧
      (runSimilar typePrefixOf isValidPath ensureAbsolute extname similarMap
          (some w)).written = []) := by
  have hlen : ¬similarMap.length = 0 := by
    simpa [List.length_eq_zero] using hne
  constructor
  · intro hext
    refine ⟨?_, ?_, decodeResults_outputJSON (transformMap similarMap)⟩ <;>
      simp [runSimilar, hlen, hvalid, hext]
  · intro hext
    constructor <;> simp [runSimilar, hlen, hvalid, hext]

/-- C10.  On an empty similarity map, `runSimilar` emits exactly the
`'No similar types found'` line and returns: no error, no file write, for
every supplied write path (even an invalid one) and regardless of the path
validator, the path resolver and the extension function — the invalid-path
and unsupported-extension checks are never reached. -/
theorem similar_empty_map_returns_before_write (typePrefixOf : String → String)
    (isValidPath : String → Bool) (ensureAbsolute : String → String)
    (extname : String → String) (write : Option String) :
    runSimilar typePrefixOf isValidPath ensureAbsolute extname [] write =
      { emitted := ["\nNo similar types found"], written := [],
        error := none } := rfl

/-! ## Concrete instances for the witnesses -/

/-- Concrete collaborator oracle: the diff collaborator throws, every other
collaborator emits one line and succeeds. -/
def demoCollab : Collab := fun _ cmd =>
  if cmd.command = some "diff" then ([], some "breaking change")
  else (["ok"], none)

/-- Concrete command collection: a diff task (whose collaborator throws under
`demoCollab`) followed by a coverage task. -/
def demoCmds : List (String × RawCommand) :=
  [("lintDiff", { command := some "diff", schema := some "old.graphql" }),
   ("cov", { command := some "coverage", documents := some "docs" })]

/-- Concrete collection whose first entry has an unrecognized kind tag. -/
def demoUnknownCmds : List (String × RawCommand) :=
  [("intro", { command := some "introspect" }),
   ("sim", { command := some "similar" })]

/-- Concrete collection whose first entry is a coverage command with no
document pointer. -/
def demoNoDocsCmds : List (String × RawCommand) :=
  [("cov", { command := some "coverage" }),
   ("sim", { command := some "similar" })]

/-- Concrete similarity map for the write round-trip witness. -/
def demoSimilarMap : SimilarMap :=
  [("User", { bestMatch := { target := { typeId := "Member" }, rating := 9/10 },
              ratings := [{ target := { typeId := "Member" }, rating := 9/10 }] })]

/-- Witness for C2: under `demoCollab` the `lintDiff` task throws while `cov`
runs, with completion order `[1, 0]` (the sibling finishes first). -/
theorem fanout_task_error_is_isolated_witness :
    demoCmds[0]? =
      some ("lintDiff", { command := some "diff", schema := some "old.graphql" }) ∧
    ([1, 0] : List Nat).Perm (List.range demoCmds.length) ∧
    taskDispatch demoCollab true "lintDiff"
      { command := some "diff", schema := some "old.graphql" } =
      ([], some "breaking change") ∧
    ((runFanout demoCollab true demoCmds [1, 0]).2 = false ∧
     (runFanout demoCollab true demoCmds [1, 0]).1[0]? =
       some (banner "lintDiff" :: ([] ++ ["breaking change"])) ∧
     (runFanout demoCollab true demoCmds [1, 0]).1 =
       demoCmds.map (fun t => (taskOutput demoCollab true t).1)) :=
  ⟨by decide, by decide, by decide,
   fanout_task_error_is_isolated demoCollab true demoCmds [1, 0] 0 "lintDiff"
     { command := some "diff", schema := some "old.graphql" } [] "breaking change"
     (by decide) (by decide) (by decide)⟩

/-- Witness for C3 at a two-command collection completed out of order. -/
theorem fanout_buffers_count_and_flush_order_witness :
    ([1, 0] : List Nat).Perm (List.range demoCmds.length) ∧
    ((runFanout demoCollab true demoCmds [1, 0]).1.length = demoCmds.length ∧
     (runFanout demoCollab true demoCmds [1, 0]).1 =
       demoCmds.map (fun t => (taskOutput demoCollab true t).1)) :=
  ⟨by decide,
   fanout_buffers_count_and_flush_order demoCollab true demoCmds [1, 0] (by decide)⟩

/-- Witness for C5: the shorthand `diff ↦ {schema: "old.graphql"}` and the
explicit `myDiff ↦ {command: "diff", schema: "old.graphql"}` normalize to the
same spec. -/
theorem shorthand_explicit_normalize_agree_witness :
    "diff" ∈ supportedCommands ∧
    ({ schema := some "old.graphql" } : RawCommand).command = none ∧
    (transformCommand "diff" { schema := some "old.graphql" } =
      { ({ schema := some "old.graphql" } : RawCommand) with
          command := some "diff" } ∧
     transformCommand "myDiff"
        { ({ schema := some "old.graphql" } : RawCommand) with
            command := some "diff" } =
      { ({ schema := some "old.graphql" } : RawCommand) with
          command := some "diff" }) :=
  ⟨by decide, rfl,
   shorthand_explicit_normalize_agree "diff" "myDiff"
     { schema := some "old.graphql" } (by decide) rfl⟩

/-- Witness for C6 with the unrecognized kind `introspect`, instantiating the
normalization passthrough at a known-kind label and at an arbitrary one. -/
theorem unknown_kind_passthrough_and_task_error_witness :
    ({ command := some "introspect" } : RawCommand).command = some "introspect" ∧
    "introspect" ∉ supportedCommands ∧
    demoUnknownCmds[0]? = some ("intro", { command := some "introspect" }) ∧
    ([1, 0] : List Nat).Perm (List.range demoUnknownCmds.length) ∧
    transformCommand "diff" { command := some "introspect" } =
      { command := some "introspect" } ∧
    transformCommand "intro" { command := some "introspect" } =
      { command := some "introspect" } ∧
    taskDispatch demoCollab true "intro" { command := some "introspect" } =
      ([], some ("Command " ++ "introspect" ++ " not supported")) ∧
    (runFanout demoCollab true demoUnknownCmds [1, 0]).2 = false ∧
    (runFanout demoCollab true demoUnknownCmds [1, 0]).1[0]? =
      some [banner "intro", "Command " ++ "introspect" ++ " not supported"] ∧
    (runFanout demoCollab true demoUnknownCmds [1, 0]).1 =
      demoUnknownCmds.map (fun t => (taskOutput demoCollab true t).1) :=
  ⟨rfl, by decide, by decide, by decide,
   (unknown_kind_passthrough_and_task_error demoCollab true demoUnknownCmds
     [1, 0] 0 "intro" "introspect" { command := some "introspect" } rfl
     (by decide) (by decide) (by decide)).1 "diff",
   (unknown_kind_passthrough_and_task_error demoCollab true demoUnknownCmds
     [1, 0] 0 "intro" "introspect" { command := some "introspect" } rfl
     (by decide) (by decide) (by decide)).1 "intro",
   (unknown_kind_passthrough_and_task_error demoCollab true demoUnknownCmds
     [1, 0] 0 "intro" "introspect" { command := some "introspect" } rfl
     (by decide) (by decide) (by decide)).2.1,
   (unknown_kind_passthrough_and_task_error demoCollab true demoUnknownCmds
     [1, 0] 0 "intro" "introspect" { command := some "introspect" } rfl
     (by decide) (by decide) (by decide)).2.2.2.1,
   (unknown_kind_passthrough_and_task_error demoCollab true demoUnknownCmds
     [1, 0] 0 "intro" "introspect" { command := some "introspect" } rfl
     (by decide) (by decide) (by decide)).2.2.2.2.1,
   (unknown_kind_passthrough_and_task_error demoCollab true demoUnknownCmds
     [1, 0] 0 "intro" "introspect" { command := some "introspect" } rfl
     (by decide) (by decide) (by decide)).2.2.2.2.2⟩

/-- Witness for C8: a coverage task with no context documents and no pointer,
completed after its sibling. -/
theorem missing_documents_error_is_task_local_witness :
    (({ command := some "coverage" } : RawCommand).command = some "coverage" ∨
     ({ command := some "coverage" } : RawCommand).command = some "validate") ∧
    ({ command := some "coverage" } : RawCommand).documents = none ∧
    demoNoDocsCmds[0]? = some ("cov", { command := some "coverage" }) ∧
    ([1, 0] : List Nat).Perm (List.range demoNoDocsCmds.length) ∧
    (taskDispatch demoCollab false "cov" { command := some "coverage" } =
      ([], some "Documents are missing") ∧
     (runFanout demoCollab false demoNoDocsCmds [1, 0]).2 = false ∧
     (runFanout demoCollab false demoNoDocsCmds [1, 0]).1[0]? =
       some [banner "cov", "Documents are missing"] ∧
     (runFanout demoCollab false demoNoDocsCmds [1, 0]).1 =
       demoNoDocsCmds.map (fun t => (taskOutput demoCollab false t).1)) :=
  ⟨Or.inl rfl, rfl, by decide, by decide,
   missing_documents_error_is_task_local demoCollab demoNoDocsCmds [1, 0] 0
     "cov" { command := some "coverage" } (Or.inl rfl) rfl (by decide) (by decide)⟩

/-- Witness for C9 at a one-type similarity map written to `out.json`,
instantiating the json-extension branch. -/
theorem similar_write_roundtrip_or_rejects_witness :
    demoSimilarMap ≠ [] ∧
    (fun _ => true) "out.json" = true ∧
    cleanExt ((fun _ => ".json") ((fun p => "/root/" ++ p) "out.json")) = "json" ∧
    ((runSimilar (fun _ => "type") (fun _ => true) (fun p => "/root/" ++ p)
        (fun _ => ".json") demoSimilarMap (some "out.json")).written =
      [((fun p => "/root/" ++ p) "out.json",
        outputJSON (transformMap demoSimilarMap))] ∧
     (runSimilar (fun _ => "type") (fun _ => true) (fun p => "/root/" ++ p)
        (fun _ => ".json") demoSimilarMap (some "out.json")).error = none ∧
     decodeResults (outputJSON (transformMap demoSimilarMap)) =
       some (transformMap demoSimilarMap)) :=
  ⟨by decide, rfl, by decide,
   (similar_write_roundtrip_or_rejects (fun _ => "type") (fun _ => true)
     (fun p => "/root/" ++ p) (fun _ => ".json") demoSimilarMap "out.json"
     (by decide) rfl).1 (by decide)⟩
